import Mathlib

/-!
Verification of the KPI-detection client of the survey-data-analyser
repository (`src/ai/flows/kpi-detection.ts`).

The module wraps one external prompt call in a bounded exponential-backoff
retry loop.  We embed the flow body of `detectKpisFlow` as a function over
an oracle assigning to every attempt index the outcome of the external
call, and record the observable trace: the final outcome, the backoff
sleeps performed, the warning log lines emitted, and the argument passed
to each external call.  The Handlebars prompt template of
`detectKpisPrompt` is embedded as a string-rendering function.
-/

namespace KpiDetection

/-- JSON-like values appearing in a survey record (string, number,
boolean, or null), following the data model of the spec for the
`z.record(z.any())` record entries. -/
inductive JsonVal where
  | str (s : String)
  | num (n : Int)
  | bool (b : Bool)
  | null
deriving DecidableEq, Repr

/-- One survey response: a mapping from column name to value. -/
abbrev SurveyRecord := List (String × JsonVal)

/-- Input of `detectKpis`: `surveyData` is the array of survey responses,
`language` the optional language hint (`z.string().optional()`). -/
structure DetectKpisInput where
  surveyData : List SurveyRecord
  language : Option String
deriving DecidableEq, Repr

/-- Output of `detectKpis`: the identified KPI column names and the
explanation text. -/
structure DetectKpisOutput where
  kpis : List String
  explanation : String
deriving DecidableEq, Repr

/-- A JavaScript error value as observed by the `catch` block.
`message = some s` models an error whose `message` property is the string
`s`; `message = none` models an error whose `message` property is absent
or not a string (so that calling `.includes` on it throws a TypeError). -/
structure JsError where
  message : Option String
deriving DecidableEq, Repr

/-- Outcome of one external call `detectKpisPrompt(input)`:
either the promise resolves, with `output` the destructured `output`
field (`none` models a missing/undefined output), or it rejects with a
JavaScript error. -/
inductive CallResult where
  | success (output : Option DetectKpisOutput)
  | failure (error : JsError)
deriving DecidableEq, Repr

/-- Final outcome of one invocation of the flow body:

* `resolved output` — the flow returned `output!`; `output = none` models
  resolving with an undefined value;
* `rejected e` — the flow re-threw the caught error `e` unchanged;
* `typeErrorThrown` — evaluating `error.message.includes(...)` itself
  threw a TypeError because `message` was not a string;
* `exhaustedThrown msg` — the flow threw `new Error(msg)` after the
  retry loop exited. -/
inductive FlowOutcome where
  | resolved (output : Option DetectKpisOutput)
  | rejected (error : JsError)
  | typeErrorThrown
  | exhaustedThrown (msg : String)
deriving DecidableEq, Repr

/-- Observable trace of one invocation: final outcome, the list of
backoff sleep durations (ms, in order), the warning log lines (in
order), and the argument passed to each external call (in order). -/
structure FlowTrace where
  outcome : FlowOutcome
  sleeps : List Nat
  warns : List String
  calls : List DetectKpisInput
deriving DecidableEq, Repr

/-- Number of external attempts made during the invocation. -/
def FlowTrace.attempts (t : FlowTrace) : Nat := t.calls.length

/-- The constant `maxRetries` of the flow body. -/
def maxRetries : Nat := 3

/-- The initial backoff delay (`let delay = 2000`). -/
def initialDelayMs : Nat := 2000

/-- The substring the `catch` block looks for in the error message. -/
def pat429 : String := "429 Too Many Requests"

/-- The message of the terminal error thrown after the loop exits. -/
def exhaustedMessage : String :=
  "Failed to detect KPIs after multiple retries due to rate limiting."

/-- JavaScript `s.includes(pat)`: substring containment. -/
def strIncludes (s pat : String) : Bool := decide (pat.data <:+: s.data)

/-- The warning line logged before a retry:
`Rate limit exceeded. Retrying in (delay / 1000) seconds...`. -/
def warnLine (delay : Nat) : String :=
  "Rate limit exceeded. Retrying in " ++ toString (delay / 1000) ++ " seconds..."

/-- The `while (retries < maxRetries)` loop of the flow body.  `fuel` is
`maxRetries - retries`, `attempt` the index of the next external call,
`delay` the current backoff delay.  Each iteration performs one external
call; on success it returns the (possibly missing) output as-is; on an
error whose message contains `pat429` it logs a warning, sleeps the
current delay, doubles the delay and continues; on any other error with
a string message it re-throws that error; on an error without a string
message the classification itself throws a TypeError.  When the loop
exits, the terminal exhaustion error is thrown. -/
def detectKpisLoop (input : DetectKpisInput)
    (oracle : DetectKpisInput → Nat → CallResult) :
    Nat → Nat → Nat → FlowTrace
  | 0, _, _ => ⟨.exhaustedThrown exhaustedMessage, [], [], []⟩
  | fuel + 1, attempt, delay =>
    match oracle input attempt with
    | .success output => ⟨.resolved output, [], [], [input]⟩
    | .failure e =>
      match e.message with
      | none => ⟨.typeErrorThrown, [], [], [input]⟩
      | some msg =>
        if strIncludes msg pat429 then
          let t := detectKpisLoop input oracle fuel (attempt + 1) (delay * 2)
          ⟨t.outcome, delay :: t.sleeps, warnLine delay :: t.warns, input :: t.calls⟩
        else
          ⟨.rejected e, [], [], [input]⟩

/-- The flow body of `detectKpisFlow`, started with `retries = 0` and
`delay = 2000`. -/
def detectKpisFlow (input : DetectKpisInput)
    (oracle : DetectKpisInput → Nat → CallResult) : FlowTrace :=
  detectKpisLoop input oracle maxRetries 0 initialDelayMs

/-- The exported `detectKpis` function simply invokes the flow. -/
def detectKpis (input : DetectKpisInput)
    (oracle : DetectKpisInput → Nat → CallResult) : FlowTrace :=
  detectKpisFlow input oracle

/-- The first `k` attempts (starting at `start`) all fail with an error
whose string message contains the rate-limit marker. -/
def rlPrefix (input : DetectKpisInput)
    (oracle : DetectKpisInput → Nat → CallResult) (start k : Nat) : Prop :=
  ∀ i, i < k →
    ∃ m, oracle input (start + i) = .failure ⟨some m⟩ ∧
      strIncludes m pat429 = true

/-- Handlebars escaping of one character, as applied by a double-stash
`\x7b\x7bexpr\x7d\x7d` substitution (`escapeExpression`). -/
def escapeChar (c : Char) : String :=
  if c = '&' then "&amp;"
  else if c = '<' then "&lt;"
  else if c = '>' then "&gt;"
  else if c = Char.ofNat 34 then "&quot;"
  else if c = Char.ofNat 39 then "&#x27;"
  else if c = Char.ofNat 96 then "&#x60;"
  else if c = '=' then "&#x3D;"
  else String.singleton c

/-- Handlebars escaping of a string. -/
def escapeHtml (s : String) : String :=
  String.join (s.data.map escapeChar)

/-- JSON serialization of one record value. -/
def JsonVal.serialize : JsonVal → String
  | .str s => "\"" ++ s ++ "\""
  | .num n => toString n
  | .bool b => if b then "true" else "false"
  | .null => "null"

/-- JSON serialization of one survey record. -/
def serializeRecord (r : SurveyRecord) : String :=
  "\x7b" ++
    String.intercalate ","
      (r.map (fun kv => "\"" ++ kv.1 ++ "\":" ++ kv.2.serialize)) ++
  "\x7d"

/-- JSON serialization of the survey-data array. -/
def serializeData (d : List SurveyRecord) : String :=
  "[" ++ String.intercalate "," (d.map serializeRecord) ++ "]"

/-- The fixed leading text of the prompt template of `detectKpisPrompt`,
up to the conditional language block. -/
def promptHeader : String :=
  "You are an expert data analyst specializing in survey data.\n\n" ++
  "  Analyze the provided survey data to identify the key performance indicators (KPIs).\n" ++
  "  A KPI is a numerical data point which has the highest correlation to all the other numerical data points.\n" ++
  "  Consider only the numerical survey responses when identifying KPIs.\n" ++
  "  Return a list of the names of the columns which have a numerical datatype, and are KPIs.\n" ++
  "  Also explain the reasoning behind why these data points are KPIs.\n\n"

/-- The body of the conditional language block of the template, with the
language substituted (escaped) at both double-stash occurrences. -/
def languageNote (l : String) : String :=
  "  Note: The survey data is in " ++ escapeHtml l ++
  " language. Please consider language-specific nuances when identifying KPIs. Column names and values may be in " ++
  escapeHtml l ++ ".\n"

/-- Handlebars truthiness of the optional `language` field: an absent
value and the empty string are falsy. -/
def isTruthy : Option String → Bool
  | none => false
  | some l => l != ""

/-- Rendering of the conditional block: included exactly when
`language` is truthy. -/
def langBlock (language : Option String) : String :=
  match language with
  | none => ""
  | some l => if l = "" then "" else languageNote l

/-- The trailing text of the template: the survey-data line, with the
serialized records substituted at the triple-stash (unescaped). -/
def surveyFooter (d : List SurveyRecord) : String :=
  "\n  Survey Data: " ++ serializeData d ++ "\n  "

/-- Rendering of the whole prompt template of `detectKpisPrompt` on an
input. -/
def renderPrompt (i : DetectKpisInput) : String :=
  promptHeader ++ langBlock i.language ++ surveyFooter i.surveyData

/-- The example records of the spec:
two records with an `age` number and a `satisfaction` string. -/
def exRecords : List SurveyRecord :=
  [[("age", .num 30), ("satisfaction", .str "high")],
   [("age", .num 45), ("satisfaction", .str "low")]]

/-- The example input with no language hint. -/
def exInput : DetectKpisInput := ⟨exRecords, none⟩

/-- The example input with `language: "fr"`. -/
def exInputFr : DetectKpisInput := ⟨exRecords, some "fr"⟩

/-- A concrete parsed result used in witnesses. -/
def exOutput : DetectKpisOutput :=
  ⟨["age"], "age has the highest correlation to the other numerical columns"⟩

/-- A rate-limit error: its message contains the 429 marker. -/
def rlError : JsError := ⟨some "429 Too Many Requests"⟩

/-- A non-rate-limit upstream error with a string message. -/
def upstreamError : JsError := ⟨some "500 Internal Server Error"⟩

/-- Oracle: every attempt hits the rate limit. -/
def rlOracle : DetectKpisInput → Nat → CallResult :=
  fun _ _ => .failure rlError

/-- Oracle: every attempt resolves but with a missing output. -/
def noOutputOracle : DetectKpisInput → Nat → CallResult :=
  fun _ _ => .success none

/-- Oracle: every attempt rejects with an error whose message is not a
string. -/
def noMessageOracle : DetectKpisInput → Nat → CallResult :=
  fun _ _ => .failure ⟨none⟩

/-- Oracle: every attempt succeeds with `exOutput`. -/
def successOracle : DetectKpisInput → Nat → CallResult :=
  fun _ _ => .success (some exOutput)

/-- Oracle: every attempt rejects with the non-rate-limit error. -/
def upstreamOracle : DetectKpisInput → Nat → CallResult :=
  fun _ _ => .failure upstreamError

/-- Oracle: two rate-limit failures, then success. -/
def twoRlThenSuccessOracle : DetectKpisInput → Nat → CallResult :=
  fun _ i => if i < 2 then .failure rlError else .success (some exOutput)

/-- Oracle: one rate-limit failure, then the non-rate-limit error. -/
def rlThenUpstreamOracle : DetectKpisInput → Nat → CallResult :=
  fun _ i => if i = 0 then .failure rlError else .failure upstreamError

/-- `strIncludes` decides substring containment. -/
theorem strIncludes_iff (s pat : String) :
    strIncludes s pat = true ↔ pat.data <:+: s.data :=
  decide_eq_true_iff

/-- Unfolding of the loop at zero remaining fuel. -/
theorem detectKpisLoop_zero (input : DetectKpisInput)
    (oracle : DetectKpisInput → Nat → CallResult) (attempt delay : Nat) :
    detectKpisLoop input oracle 0 attempt delay =
      ⟨.exhaustedThrown exhaustedMessage, [], [], []⟩ := rfl

/-- Unfolding of one loop iteration. -/
theorem detectKpisLoop_succ (input : DetectKpisInput)
    (oracle : DetectKpisInput → Nat → CallResult) (fuel attempt delay : Nat) :
    detectKpisLoop input oracle (fuel + 1) attempt delay =
      match oracle input attempt with
      | .success output => ⟨.resolved output, [], [], [input]⟩
      | .failure e =>
        match e.message with
        | none => ⟨.typeErrorThrown, [], [], [input]⟩
        | some msg =>
          if strIncludes msg pat429 then
            ⟨(detectKpisLoop input oracle fuel (attempt + 1) (delay * 2)).outcome,
             delay ::
               (detectKpisLoop input oracle fuel (attempt + 1) (delay * 2)).sleeps,
             warnLine delay ::
               (detectKpisLoop input oracle fuel (attempt + 1) (delay * 2)).warns,
             input ::
               (detectKpisLoop input oracle fuel (attempt + 1) (delay * 2)).calls⟩
          else
            ⟨.rejected e, [], [], [input]⟩ := rfl

/-- A successful call ends the loop with the output returned as-is. -/
theorem detectKpisLoop_success (input : DetectKpisInput)
    (oracle : DetectKpisInput → Nat → CallResult) (fuel attempt delay : Nat)
    (output : Option DetectKpisOutput)
    (h : oracle input attempt = .success output) :
    detectKpisLoop input oracle (fuel + 1) attempt delay =
      ⟨.resolved output, [], [], [input]⟩ := by
  rw [detectKpisLoop_succ, h]

/-- An error without a string message makes the classification throw. -/
theorem detectKpisLoop_noMessage (input : DetectKpisInput)
    (oracle : DetectKpisInput → Nat → CallResult) (fuel attempt delay : Nat)
    (e : JsError) (h : oracle input attempt = .failure e)
    (hm : e.message = none) :
    detectKpisLoop input oracle (fuel + 1) attempt delay =
      ⟨.typeErrorThrown, [], [], [input]⟩ := by
  rw [detectKpisLoop_succ, h]
  simp [hm]

/-- A rate-limit error triggers warn, sleep, doubling and a retry. -/
theorem detectKpisLoop_rl (input : DetectKpisInput)
    (oracle : DetectKpisInput → Nat → CallResult) (fuel attempt delay : Nat)
    (m : String) (h : oracle input attempt = .failure ⟨some m⟩)
    (hrl : strIncludes m pat429 = true) :
    detectKpisLoop input oracle (fuel + 1) attempt delay =
      ⟨(detectKpisLoop input oracle fuel (attempt + 1) (delay * 2)).outcome,
       delay :: (detectKpisLoop input oracle fuel (attempt + 1) (delay * 2)).sleeps,
       warnLine delay ::
         (detectKpisLoop input oracle fuel (attempt + 1) (delay * 2)).warns,
       input ::
         (detectKpisLoop input oracle fuel (attempt + 1) (delay * 2)).calls⟩ := by
  rw [detectKpisLoop_succ, h]
  simp [hrl]

/-- A non-rate-limit error with a string message is re-thrown unchanged. -/
theorem detectKpisLoop_reject (input : DetectKpisInput)
    (oracle : DetectKpisInput → Nat → CallResult) (fuel attempt delay : Nat)
    (e : JsError) (m : String) (h : oracle input attempt = .failure e)
    (hm : e.message = some m) (hnot : strIncludes m pat429 = false) :
    detectKpisLoop input oracle (fuel + 1) attempt delay =
      ⟨.rejected e, [], [], [input]⟩ := by
  rw [detectKpisLoop_succ, h]
  simp [hm, hnot]

/-- Running the loop across a block of `k` consecutive rate-limit
failures: the loop sleeps the doubling delays in order, warns once per
sleep, calls the oracle `k` times, and then continues at attempt
`attempt + k` with `k` fewer retries left and the delay multiplied by
`2 ^ k`. -/
theorem detectKpisLoop_rlPrefix (input : DetectKpisInput)
    (oracle : DetectKpisInput → Nat → CallResult) :
    ∀ k fuel attempt delay, k ≤ fuel →
      rlPrefix input oracle attempt k →
      detectKpisLoop input oracle fuel attempt delay =
        ⟨(detectKpisLoop input oracle (fuel - k) (attempt + k)
            (delay * 2 ^ k)).outcome,
         (List.range k).map (fun j => delay * 2 ^ j) ++
           (detectKpisLoop input oracle (fuel - k) (attempt + k)
             (delay * 2 ^ k)).sleeps,
         (List.range k).map (fun j => warnLine (delay * 2 ^ j)) ++
           (detectKpisLoop input oracle (fuel - k) (attempt + k)
             (delay * 2 ^ k)).warns,
         List.replicate k input ++
           (detectKpisLoop input oracle (fuel - k) (attempt + k)
             (delay * 2 ^ k)).calls⟩ := by
  intro k
  induction k with
  | zero =>
    intro fuel attempt delay _ _
    simp
  | succ k ih =>
    intro fuel attempt delay hk hp
    obtain ⟨f, rfl⟩ : ∃ f, fuel = f + 1 := ⟨fuel - 1, by omega⟩
    obtain ⟨m, hm, hrl⟩ := hp 0 (Nat.succ_pos k)
    rw [Nat.add_zero] at hm
    have hp' : rlPrefix input oracle (attempt + 1) k := by
      intro i hi
      obtain ⟨m', hm', hrl'⟩ := hp (i + 1) (by omega)
      refine ⟨m', ?_, hrl'⟩
      rw [← hm']
      congr 1
      omega
    rw [detectKpisLoop_rl input oracle f attempt delay m hm hrl,
      ih f (attempt + 1) (delay * 2) (by omega) hp']
    have e1 : f - k = f + 1 - (k + 1) := by omega
    have e2 : attempt + 1 + k = attempt + (k + 1) := by omega
    have e3 : delay * 2 * 2 ^ k = delay * 2 ^ (k + 1) := by ring
    rw [e1, e2, e3]
    have hmap : ∀ {α : Type} (g : Nat → α),
        (List.range (k + 1)).map g =
          g 0 :: (List.range k).map (fun j => g (j + 1)) := by
      intro α g
      rw [List.range_succ_eq_map, List.map_cons, List.map_map]
      rfl
    simp only [FlowTrace.mk.injEq, true_and]
    refine ⟨?_, ?_, ?_⟩
    · rw [hmap (fun j => delay * 2 ^ j)]
      simp only [pow_zero, Nat.mul_one, List.cons_append, List.cons.injEq,
        true_and]
      congr 1
      exact List.map_congr_left (fun j _ => by ring)
    · rw [hmap (fun j => warnLine (delay * 2 ^ j))]
      simp only [pow_zero, Nat.mul_one, List.cons_append, List.cons.injEq,
        true_and]
      congr 1
      exact List.map_congr_left (fun j _ => by rw [show delay * 2 * 2 ^ j =
        delay * 2 ^ (j + 1) from by ring])
    · rw [List.replicate_succ]
      simp

/-- Invariant of the loop: it emits exactly one warning line per sleep,
the line reporting the slept duration, and it passes the unchanged input
to every external call. -/
theorem detectKpisLoop_warns_calls (input : DetectKpisInput)
    (oracle : DetectKpisInput → Nat → CallResult) :
    ∀ fuel attempt delay,
      (detectKpisLoop input oracle fuel attempt delay).warns =
        (detectKpisLoop input oracle fuel attempt delay).sleeps.map warnLine ∧
      (detectKpisLoop input oracle fuel attempt delay).calls =
        List.replicate
          (detectKpisLoop input oracle fuel attempt delay).calls.length
          input := by
  intro fuel
  induction fuel with
  | zero =>
    intro attempt delay
    simp [detectKpisLoop_zero]
  | succ f ih =>
    intro attempt delay
    rcases h : oracle input attempt with output | e
    · rw [detectKpisLoop_success input oracle f attempt delay output h]
      simp
    · rcases hmsg : e.message with _ | msg
      · rw [detectKpisLoop_noMessage input oracle f attempt delay e h hmsg]
        simp
      · by_cases hrl : strIncludes msg pat429 = true
        · obtain ⟨e', rfl⟩ : ∃ e', e = JsError.mk e' := ⟨e.message, rfl⟩
          rw [show e' = some msg from hmsg] at h
          rw [detectKpisLoop_rl input oracle f attempt delay msg h hrl]
          have hih := ih (attempt + 1) (delay * 2)
          simp [hih.1, List.replicate_succ]
          conv_lhs => rw [hih.2]
        · rw [detectKpisLoop_reject input oracle f attempt delay e msg h hmsg
            (by simpa using hrl)]
          simp

/-- Infix extraction from a three-part string concatenation. -/
theorem str_middle_infix (a b c : String) :
    b.data <:+: (a ++ b ++ c).data :=
  ⟨a.data, c.data, by simp [String.data_append]⟩

/-- Claim C1: for every sequence of `k < 3` consecutive rate-limit
failures followed by a success, `detectKpis` returns the success result,
having slept the doubling backoff delays starting at 2000 ms — that is,
2000 ms, then 4000 ms — in order. -/
theorem C1_rate_limits_then_success (input : DetectKpisInput)
    (oracle : DetectKpisInput → Nat → CallResult) (k : Nat) (hk : k < 3)
    (output : Option DetectKpisOutput)
    (hfail : rlPrefix input oracle 0 k)
    (hsucc : oracle input k = .success output) :
    (detectKpis input oracle).outcome = .resolved output ∧
    (detectKpis input oracle).sleeps =
      (List.range k).map (fun j => initialDelayMs * 2 ^ j) := by
  have hunfold : detectKpis input oracle =
      detectKpisLoop input oracle maxRetries 0 initialDelayMs := rfl
  rw [hunfold,
    detectKpisLoop_rlPrefix input oracle k maxRetries 0 initialDelayMs
      (by simp only [maxRetries]; omega) hfail]
  obtain ⟨r, hr⟩ : ∃ r, maxRetries - k = r + 1 :=
    ⟨maxRetries - k - 1, by simp only [maxRetries]; omega⟩
  rw [hr,
    detectKpisLoop_success input oracle r (0 + k) (initialDelayMs * 2 ^ k)
      output (by rw [Nat.zero_add]; exact hsucc)]
  simp

/-- Witness for C1: two rate-limit failures, then success. -/
theorem C1_rate_limits_then_success_witness :
    (detectKpis exInput twoRlThenSuccessOracle).outcome =
      .resolved (some exOutput) ∧
    (detectKpis exInput twoRlThenSuccessOracle).sleeps =
      (List.range 2).map (fun j => initialDelayMs * 2 ^ j) :=
  C1_rate_limits_then_success exInput twoRlThenSuccessOracle 2 (by omega)
    (some exOutput)
    (fun i hi =>
      ⟨"429 Too Many Requests", by interval_cases i <;> rfl, by decide⟩)
    rfl

/-- Claim C2: for exactly 3 consecutive rate-limit failures,
`detectKpis` makes exactly 3 external attempts and then throws the
terminal exhaustion error, whose message mentions retries and rate
limiting; no further attempt is made. -/
theorem C2_rate_limit_exhausted (input : DetectKpisInput)
    (oracle : DetectKpisInput → Nat → CallResult)
    (hfail : rlPrefix input oracle 0 3) :
    (detectKpis input oracle).outcome = .exhaustedThrown exhaustedMessage ∧
    (detectKpis input oracle).attempts = 3 ∧
    strIncludes exhaustedMessage "retries" = true ∧
    strIncludes exhaustedMessage "rate limiting" = true := by
  have hunfold : detectKpis input oracle =
      detectKpisLoop input oracle maxRetries 0 initialDelayMs := rfl
  rw [hunfold,
    detectKpisLoop_rlPrefix input oracle 3 maxRetries 0 initialDelayMs
      (by simp only [maxRetries]; omega) hfail]
  rw [show maxRetries - 3 = 0 from rfl, detectKpisLoop_zero]
  refine ⟨rfl, ?_, by decide, by decide⟩
  simp [FlowTrace.attempts]

/-- Witness for C2: the always-rate-limited oracle. -/
theorem C2_rate_limit_exhausted_witness :
    (detectKpis exInput rlOracle).outcome =
      .exhaustedThrown exhaustedMessage ∧
    (detectKpis exInput rlOracle).attempts = 3 ∧
    strIncludes exhaustedMessage "retries" = true ∧
    strIncludes exhaustedMessage "rate limiting" = true :=
  C2_rate_limit_exhausted exInput rlOracle
    (fun i _ => ⟨"429 Too Many Requests", rfl, by decide⟩)

/-- Claim C3: after `j < 3` rate-limit retries, a non-rate-limit error
on attempt `j` is re-thrown immediately and unchanged: no further sleep
occurs (only the `j` earlier backoff sleeps), and no further attempt is
made. -/
theorem C3_upstream_error_propagates (input : DetectKpisInput)
    (oracle : DetectKpisInput → Nat → CallResult) (j : Nat) (e : JsError)
    (m : String) (hj : j < 3)
    (hfail : rlPrefix input oracle 0 j)
    (he : oracle input j = .failure e) (hm : e.message = some m)
    (hnot : strIncludes m pat429 = false) :
    (detectKpis input oracle).outcome = .rejected e ∧
    (detectKpis input oracle).attempts = j + 1 ∧
    (detectKpis input oracle).sleeps =
      (List.range j).map (fun i => initialDelayMs * 2 ^ i) := by
  have hunfold : detectKpis input oracle =
      detectKpisLoop input oracle maxRetries 0 initialDelayMs := rfl
  rw [hunfold,
    detectKpisLoop_rlPrefix input oracle j maxRetries 0 initialDelayMs
      (by simp only [maxRetries]; omega) hfail]
  obtain ⟨r, hr⟩ : ∃ r, maxRetries - j = r + 1 :=
    ⟨maxRetries - j - 1, by simp only [maxRetries]; omega⟩
  rw [hr,
    detectKpisLoop_reject input oracle r (0 + j) (initialDelayMs * 2 ^ j)
      e m (by rw [Nat.zero_add]; exact he) hm hnot]
  exact ⟨rfl, by simp [FlowTrace.attempts], by simp⟩

/-- Witness for C3: one rate-limit failure, then a 500-class error. -/
theorem C3_upstream_error_propagates_witness :
    (detectKpis exInput rlThenUpstreamOracle).outcome =
      .rejected upstreamError ∧
    (detectKpis exInput rlThenUpstreamOracle).attempts = 2 ∧
    (detectKpis exInput rlThenUpstreamOracle).sleeps =
      (List.range 1).map (fun i => initialDelayMs * 2 ^ i) :=
  C3_upstream_error_propagates exInput rlThenUpstreamOracle 1
    upstreamError "500 Internal Server Error" (by omega)
    (fun i hi =>
      ⟨"429 Too Many Requests", by interval_cases i; rfl, by decide⟩)
    rfl rfl (by decide)

/-- Claim C4, code behavior at the failing input: after the third
consecutive rate-limit failure the flow still performs the doubled
backoff sleep of 8000 ms and logs one more retry warning before
throwing the terminal exhaustion error; it does not move directly to
the failed state after the last attempt. -/
theorem C4_sleeps_after_final_rate_limit :
    (detectKpis exInput rlOracle).sleeps = [2000, 4000, 8000] ∧
    (detectKpis exInput rlOracle).warns =
      [warnLine 2000, warnLine 4000, warnLine 8000] ∧
    (detectKpis exInput rlOracle).outcome =
      .exhaustedThrown exhaustedMessage :=
  ⟨rfl, rfl, rfl⟩

/-- Claim C5, code behavior at the failing input: when the external
call reports success but its output is missing, the flow resolves with
the missing (undefined) output after one attempt instead of surfacing a
distinct failure — the outcome set of the flow has no output-missing
failure at all. -/
theorem C5_missing_output_resolved :
    (detectKpis exInput noOutputOracle).outcome = .resolved none ∧
    (detectKpis exInput noOutputOracle).attempts = 1 ∧
    (detectKpis exInput noOutputOracle).sleeps = [] :=
  ⟨rfl, rfl, rfl⟩

/-- Claim C6: whenever the external call succeeds on the first attempt,
`detectKpis` returns the parsed result as-is, with exactly one external
call, no sleep and no warning. -/
theorem C6_first_attempt_success (input : DetectKpisInput)
    (oracle : DetectKpisInput → Nat → CallResult)
    (output : Option DetectKpisOutput)
    (hsucc : oracle input 0 = .success output) :
    detectKpis input oracle = ⟨.resolved output, [], [], [input]⟩ := by
  have hunfold : detectKpis input oracle =
      detectKpisLoop input oracle (2 + 1) 0 initialDelayMs := rfl
  rw [hunfold,
    detectKpisLoop_success input oracle 2 0 initialDelayMs output hsucc]

/-- Witness for C6: an oracle succeeding immediately. -/
theorem C6_first_attempt_success_witness :
    detectKpis exInput successOracle =
      ⟨.resolved (some exOutput), [], [], [exInput]⟩ :=
  C6_first_attempt_success exInput successOracle (some exOutput) rfl

/-- Claim C7: a caught error (with a string message) is treated as a
rate-limit condition — one warning, one sleep of the current delay,
doubling of the delay, and a retry with one unit of retry budget
consumed — exactly when its message contains the substring
`429 Too Many Requests`; otherwise the error is re-thrown at once with
no sleep, no warning and no further call. -/
theorem C7_classification_by_message_substring (input : DetectKpisInput)
    (oracle : DetectKpisInput → Nat → CallResult) (e : JsError)
    (m : String) (he : oracle input 0 = .failure e)
    (hm : e.message = some m) :
    (pat429.data <:+: m.data →
      detectKpis input oracle =
        ⟨(detectKpisLoop input oracle 2 1 (initialDelayMs * 2)).outcome,
         initialDelayMs ::
           (detectKpisLoop input oracle 2 1 (initialDelayMs * 2)).sleeps,
         warnLine initialDelayMs ::
           (detectKpisLoop input oracle 2 1 (initialDelayMs * 2)).warns,
         input ::
           (detectKpisLoop input oracle 2 1 (initialDelayMs * 2)).calls⟩) ∧
    (¬ pat429.data <:+: m.data →
      detectKpis input oracle = ⟨.rejected e, [], [], [input]⟩) := by
  obtain ⟨msg⟩ := e
  change msg = some m at hm
  subst hm
  have hunfold : detectKpis input oracle =
      detectKpisLoop input oracle (2 + 1) 0 initialDelayMs := rfl
  constructor
  · intro hinf
    rw [hunfold,
      detectKpisLoop_rl input oracle 2 0 initialDelayMs m he
        (decide_eq_true hinf)]
  · intro hinf
    rw [hunfold,
      detectKpisLoop_reject input oracle 2 0 initialDelayMs ⟨some m⟩ m he
        rfl (decide_eq_false hinf)]

/-- Witness for C7: a 500-class message is not classified as a rate
limit and is re-thrown immediately. -/
theorem C7_classification_by_message_substring_witness :
    detectKpis exInput upstreamOracle =
      ⟨.rejected upstreamError, [], [], [exInput]⟩ :=
  (C7_classification_by_message_substring exInput upstreamOracle
    upstreamError "500 Internal Server Error" rfl rfl).2 (by decide)

/-- Claim C9: the flow never alters the request it was given — every
external call receives exactly the original input — and its only
logging side effect is one warning line per backoff sleep, the line
reporting that sleep's duration. -/
theorem C9_effects (input : DetectKpisInput)
    (oracle : DetectKpisInput → Nat → CallResult) :
    (detectKpis input oracle).warns =
      (detectKpis input oracle).sleeps.map warnLine ∧
    (detectKpis input oracle).calls =
      List.replicate (detectKpis input oracle).attempts input :=
  detectKpisLoop_warns_calls input oracle maxRetries 0 initialDelayMs

/-- Claim C10: if the external call rejects with an error whose
`message` is not a string, the classification expression itself throws
a TypeError inside the catch block, so the caller receives that
TypeError rather than the original error. -/
theorem C10_non_string_message_type_error (input : DetectKpisInput)
    (oracle : DetectKpisInput → Nat → CallResult) (e : JsError)
    (he : oracle input 0 = .failure e) (hm : e.message = none) :
    (detectKpis input oracle).outcome = .typeErrorThrown ∧
    ∀ e', (detectKpis input oracle).outcome ≠ .rejected e' := by
  have hunfold : detectKpis input oracle =
      detectKpisLoop input oracle (2 + 1) 0 initialDelayMs := rfl
  rw [hunfold, detectKpisLoop_noMessage input oracle 2 0 initialDelayMs e he hm]
  exact ⟨rfl, fun e' h => FlowOutcome.noConfusion h⟩

/-- Witness for C10: an error without a string message on the first
attempt. -/
theorem C10_non_string_message_type_error_witness :
    (detectKpis exInput noMessageOracle).outcome = .typeErrorThrown :=
  (C10_non_string_message_type_error exInput noMessageOracle ⟨none⟩
    rfl rfl).1

/-- Claim C8: the rendered prompt always embeds the serialized survey
records; when `language` is present and non-empty the prompt contains
the language-specific note, with the language referenced verbatim
whenever escaping leaves it unchanged; when `language` is absent or
empty the prompt is exactly the header followed by the survey-data
line, with no language block. -/
theorem C8_prompt_payload (i : DetectKpisInput) :
    (serializeData i.surveyData).data <:+: (renderPrompt i).data ∧
    (∀ l, i.language = some l → l ≠ "" →
      (languageNote l).data <:+: (renderPrompt i).data ∧
      (escapeHtml l = l → l.data <:+: (renderPrompt i).data)) ∧
    (isTruthy i.language = false →
      renderPrompt i = promptHeader ++ surveyFooter i.surveyData) := by
  refine ⟨?_, ?_, ?_⟩
  · refine ⟨(promptHeader ++ langBlock i.language ++ "\n  Survey Data: ").data,
      ("\n  ").data, ?_⟩
    simp [renderPrompt, surveyFooter, String.data_append, List.append_assoc]
  · intro l hl hne
    have hblock : langBlock i.language = languageNote l := by
      rw [hl]
      simp [langBlock, hne]
    have h2 : (languageNote l).data <:+: (renderPrompt i).data := by
      refine ⟨promptHeader.data, (surveyFooter i.surveyData).data, ?_⟩
      simp [renderPrompt, hblock, String.data_append, List.append_assoc]
    refine ⟨h2, fun hesc => List.IsInfix.trans ?_ h2⟩
    refine ⟨("  Note: The survey data is in ").data,
      (" language. Please consider language-specific nuances when identifying KPIs. Column names and values may be in " ++
        escapeHtml l ++ ".\n").data, ?_⟩
    simp [languageNote, hesc, String.data_append, List.append_assoc]
  · intro hfalse
    have hblock : langBlock i.language = "" := by
      rcases hl : i.language with _ | l
      · simp [langBlock]
      · rw [hl] at hfalse
        simp [isTruthy] at hfalse
        simp [langBlock, hfalse]
    show promptHeader ++ langBlock i.language ++ surveyFooter i.surveyData =
      promptHeader ++ surveyFooter i.surveyData
    rw [hblock, String.append_empty]

/-- Witness for C8: the example records with `language: "fr"` and with
no language. -/
theorem C8_prompt_payload_witness :
    (serializeData exRecords).data <:+: (renderPrompt exInputFr).data ∧
    (languageNote "fr").data <:+: (renderPrompt exInputFr).data ∧
    "fr".data <:+: (renderPrompt exInputFr).data ∧
    renderPrompt exInput = promptHeader ++ surveyFooter exRecords :=
  ⟨(C8_prompt_payload exInputFr).1,
   ((C8_prompt_payload exInputFr).2.1 "fr" rfl (by decide)).1,
   ((C8_prompt_payload exInputFr).2.1 "fr" rfl (by decide)).2 (by decide),
   (C8_prompt_payload exInput).2.2 rfl⟩

end KpiDetection
